import Mathlib

set_option maxRecDepth 100000

/-!
Verification of the BeamBackgroundFilterAndQA module (sPHENIX beam-background
streak filter) against its natural-language specification.

The development shallowly embeds the C++ sources:
  - src/BeamBackgroundFilterAndQADefs.h  (struct Tower)
  - src/StreakSidebandFilter.cc          (ApplyFilter, GrabNodes, BuildTowerArray,
                                          ResetTowerArrays, IsTowerNotStreaky,
                                          IsNeighborNotStreaky)
  - src/BeamBackgroundFilterAndQA.cc     (ApplyFilters orchestration)

Modelling conventions:
  - uint8_t / uint32_t / size_t counters are Nat (all uses here are bounded
    counts and comparisons, no overflow is reachable: per-bin counts are at
    most 24 resp. 48).
  - double / float energies are Rat: the code only ever compares energies
    (<, >), never does arithmetic on them, so any linear order is faithful.
  - the 24 x 64 tower member array is modelled as a total function
    Nat -> Nat -> Tower.  Totality is deliberate: the code computes the
    out-of-range phi index 64 (getAdjacentDown at phi = 0) and uses it to
    index a 64-element row, so the embedding must be able to express that
    read; indices 0..23 / 0..63 are the stored array, anything else stands
    for whatever adjacent memory the C++ out-of-bounds access would read.
  - the null TowerInfoContainer handle is Option; BuildTowerArray
    dereferencing a null handle (m_ohcalTowers->size()) cannot complete and
    is modelled as the absence of a result (none).
-/

namespace BBFQ

/-- From BeamBackgroundFilterAndQADefs.h: struct Tower { uint8_t status = 0;
double energy = -1.; }. -/
structure Tower where
  status : Nat
  energy : Rat
deriving DecidableEq

/-- The default-constructed / reset value of a Tower: status = 0, energy = -1
(Tower::Reset sets exactly these). -/
def Tower.sentinel : Tower := { status := 0, energy := -1 }

/-- Tower::Reset mutates the receiver to the sentinel; as a pure function it
ignores the old value. -/
def Tower.Reset (_ : Tower) : Tower := Tower.sentinel

/-- One entry of the input TowerInfoContainer: the (eta, phi) bins decoded from
its key via encode_key / getTowerEtaBin / getTowerPhiBin, plus the status and
energy read by Tower::SetInfo. -/
structure ChannelReading where
  eta : Nat
  phi : Nat
  status : Nat
  energy : Rat

/-- Tower::SetInfo overwrites both fields of the receiver from the TowerInfo
object; the old tower value is irrelevant. -/
def Tower.SetInfo (_ : Tower) (c : ChannelReading) : Tower :=
  { status := c.status, energy := c.energy }

/-- m_ohTwrArray is std::array of 24 rows (eta) of std::array of 64 Towers
(phi).  Modelled as a total function so that the out-of-range phi access the
code performs (index 64) is expressible. -/
abbrev Grid := Nat → Nat → Tower

/-- m_ohTwrArray.size() = 24 eta rows. -/
def nEta : Nat := 24

/-- m_ohTwrArray.front().size() = 64 phi cells per row. -/
def nPhi : Nat := 64

/-- StreakSidebandFilter.cc line 81: getAdjacentUp = (phi + 1) mod 64. -/
def getAdjacentUp (phi : Nat) : Nat := (phi + 1) % nPhi

/-- StreakSidebandFilter.cc line 82: getAdjacentDown = (phi == 0)
? m_ohTwrArray.front().size() : (phi - 1).  Note the code returns size()
itself (64), not size() - 1. -/
def getAdjacentDown (phi : Nat) : Nat := if phi = 0 then nPhi else phi - 1

/-- The streak-relevant slice of StreakSidebandFilterConfig: energy thresholds
and the streak-length threshold. -/
structure SidebandConfig where
  minStreakTwrEne : Rat
  maxAdjacentTwrEne : Rat
  minNumTwrsInStreak : Nat

/-- StreakSidebandFilter::IsTowerNotStreaky: true iff status != 1 or
energy < minStreakTwrEne. -/
def IsTowerNotStreaky (cfg : SidebandConfig) (t : Tower) : Bool :=
  (t.status != 1) || decide (t.energy < cfg.minStreakTwrEne)

/-- StreakSidebandFilter::IsNeighborNotStreaky: true iff status != 1 or
energy > maxAdjacentTwrEne. -/
def IsNeighborNotStreaky (cfg : SidebandConfig) (t : Tower) : Bool :=
  (t.status != 1) || decide (t.energy > cfg.maxAdjacentTwrEne)

/-- A tower is a streak candidate exactly when IsTowerNotStreaky rejects a
skip, i.e. status = 1 and energy >= minStreakTwrEne. -/
def isCandidate (cfg : SidebandConfig) (t : Tower) : Bool :=
  ! IsTowerNotStreaky cfg t

/-- The iteration sequence of the double loop in ApplyFilter: phi outer
(0..63), eta inner (0..23); pairs are (phi, eta). -/
def phiEtaPairs : List (Nat × Nat) :=
  (List.range nPhi).flatMap (fun phi => (List.range nEta).map (fun eta => (phi, eta)))

/-- The increment ++m_ohNumStreak[i] on the 64-entry counter array. -/
def bumpCount (counts : List Nat) (i : Nat) : List Nat :=
  counts.set i (counts.getD i 0 + 1)

/-- One iteration of the streak loop in src/StreakSidebandFilter.cc
(lines 88-105): skip unless the cell is a candidate, skip if either phi
neighbor fails the sideband test, else increment the counter of the
candidate phi bin only. -/
def streakStepSrc (cfg : SidebandConfig) (g : Grid) (counts : List Nat)
    (pe : Nat × Nat) : List Nat :=
  if IsTowerNotStreaky cfg (g pe.2 pe.1) then counts
  else
    if IsNeighborNotStreaky cfg (g pe.2 (getAdjacentUp pe.1))
        || IsNeighborNotStreaky cfg (g pe.2 (getAdjacentDown pe.1)) then counts
    else bumpCount counts pe.1

/-- The m_ohNumStreak array after the double loop of ApplyFilter
(src/StreakSidebandFilter.cc), starting from the all-zero array. -/
def streakCountsSrc (cfg : SidebandConfig) (g : Grid) : List Nat :=
  phiEtaPairs.foldl (streakStepSrc cfg g) (List.replicate nPhi 0)

/-- One iteration of the streak loop in the part_001 variant of ApplyFilter
(lines 101-118): same candidate and sideband tests, but on success increments
both the candidate phi bin and its up neighbor bin. -/
def streakStepDouble (cfg : SidebandConfig) (g : Grid) (counts : List Nat)
    (pe : Nat × Nat) : List Nat :=
  if IsTowerNotStreaky cfg (g pe.2 pe.1) then counts
  else
    if IsNeighborNotStreaky cfg (g pe.2 (getAdjacentUp pe.1))
        || IsNeighborNotStreaky cfg (g pe.2 (getAdjacentDown pe.1)) then counts
    else bumpCount (bumpCount counts pe.1) (getAdjacentUp pe.1)

/-- The counter array after the double loop of the part_001 (double-increment)
variant of ApplyFilter. -/
def streakCountsDouble (cfg : SidebandConfig) (g : Grid) : List Nat :=
  phiEtaPairs.foldl (streakStepDouble cfg g) (List.replicate nPhi 0)

/-- The value of *std::max_element over the (nonempty, Nat-valued) counter
array: since all entries are naturals and the array is nonempty, the
dereferenced max_element is the fold of max with neutral element 0. -/
def maxElement (l : List Nat) : Nat := l.foldr Nat.max 0

/-- The verdict computed by src ApplyFilter on an already-built grid:
nMaxStreak > minNumTwrsInStreak (lines 110-113). -/
def ApplyFilterVerdict (cfg : SidebandConfig) (g : Grid) : Bool :=
  decide (maxElement (streakCountsSrc cfg g) > cfg.minNumTwrsInStreak)

/-- The verdict of the part_001 double-increment variant of ApplyFilter. -/
def ApplyFilterVerdictDouble (cfg : SidebandConfig) (g : Grid) : Bool :=
  decide (maxElement (streakCountsDouble cfg g) > cfg.minNumTwrsInStreak)

/-- The per-event mutable state of StreakSidebandFilter: the 24 x 64 tower
array and the 64-entry streak counter array. -/
structure SidebandState where
  ohTwrArray : Grid
  ohNumStreak : List Nat

/-- StreakSidebandFilter::ResetTowerArrays (lines 211-233).  The grid loop is
written 'for (auto row : m_ohTwrArray) { for (auto tower : row)
{ tower.Reset(); } }': both range-for variables are declared by value, so
Tower::Reset mutates copies and the stored member array is left unchanged.
The std::fill on m_ohNumStreak does zero the counter array. -/
def ResetTowerArrays (s : SidebandState) : SidebandState :=
  { ohTwrArray := s.ohTwrArray, ohNumStreak := List.replicate nPhi 0 }

/-- Writing one cell of the grid at (e, p). -/
def writeTower (g : Grid) (e p : Nat) (t : Tower) : Grid :=
  fun e' p' => if e' = e ∧ p' = p then t else g e' p'

/-- StreakSidebandFilter::BuildTowerArray (lines 185-204): for each container
channel, decode its (eta, phi) bins and overwrite that cell with SetInfo. -/
def BuildTowerArray (chs : List ChannelReading) (g : Grid) : Grid :=
  chs.foldl (fun acc c => writeTower acc c.eta c.phi (Tower.SetInfo (acc c.eta c.phi) c)) g

/-- The final value held at cell (e, p) after the channel loop of
BuildTowerArray, given the value d the cell held before the loop: the loop
overwrites in list order, so the last channel addressing (e, p) wins, and d
survives when no channel addresses (e, p). -/
def lastWriteVal (chs : List ChannelReading) (e p : Nat) (d : Tower) : Tower :=
  chs.foldl (fun acc c => if e = c.eta ∧ p = c.phi then Tower.SetInfo acc c else acc) d

/-- The reset-then-build sequence as called from ApplyFilter (lines 77-78):
ResetTowerArrays followed by BuildTowerArray on the stored grid. -/
def ResetAndBuild (chs : List ChannelReading) (s : SidebandState) : SidebandState :=
  { ohTwrArray := BuildTowerArray chs (ResetTowerArrays s).ohTwrArray,
    ohNumStreak := (ResetTowerArrays s).ohNumStreak }

/-- The full StreakSidebandFilter::ApplyFilter call: GrabNodes yields the
container handle (none when findNode finds no node of the configured name);
with a null handle BuildTowerArray evaluates m_ohcalTowers->size() on a null
pointer, so the call never completes - modelled as none.  Otherwise the grid
is rebuilt, the streak loop runs, and the verdict is returned. -/
def StreakApplyFilter (container : Option (List ChannelReading))
    (cfg : SidebandConfig) (s : SidebandState) : Option (SidebandState × Bool) :=
  match container with
  | none => none
  | some chs =>
      let s2 := ResetAndBuild chs s
      let counts := streakCountsSrc cfg s2.ohTwrArray
      some ({ ohTwrArray := s2.ohTwrArray, ohNumStreak := counts },
        decide (maxElement counts > cfg.minNumTwrsInStreak))

/-- For each loop iteration whose candidate test passes, the code computes
iUp and iDown and uses both to index the tower row (ApplyFilter lines
95-100); this collects every such phi index, in loop order. -/
def accessedNeighborPhiIndices (cfg : SidebandConfig) (g : Grid) : List Nat :=
  phiEtaPairs.foldr
    (fun pe acc =>
      if IsTowerNotStreaky cfg (g pe.2 pe.1) then acc
      else getAdjacentUp pe.1 :: getAdjacentDown pe.1 :: acc) []

/-- C++ 'hasBkgd += verdict' on bool: integral promotion, addition, and
conversion of the nonzero sum back to bool. -/
def boolPlusAssign (acc b : Bool) : Bool := (acc.toNat + b.toNat) != 0

/-- BeamBackgroundFilterAndQA::ApplyFilters (lines 521-537): iterate the
configured filter names in order, invoke each filter on the event, accumulate
with +=.  The result records the sequence of filters invoked and the final
aggregate bool. -/
def ApplyFilters (filtersToApply : List String) (verdictOf : String → Bool) :
    List String × Bool :=
  filtersToApply.foldl
    (fun st n => (st.1 ++ [n], boolPlusAssign st.2 (verdictOf n))) ([], false)

-- concrete grids and configurations used by counterexamples and witnesses

/-- A configuration with integral thresholds, used for concrete evaluations:
candidate needs energy >= 1, sidebands need energy <= 0, streak threshold 5. -/
def cfgProbe : SidebandConfig :=
  { minStreakTwrEne := 1, maxAdjacentTwrEne := 0, minNumTwrsInStreak := 5 }

/-- A grid whose only candidate is the cell (eta 0, phi 0). -/
def gPhiZeroCandidate : Grid :=
  fun eta phi => if eta = 0 ∧ phi = 0 then { status := 1, energy := 1 } else Tower.sentinel

/-- A grid holding stale nonzero data in every cell. -/
def gStale : Grid := fun _ _ => { status := 1, energy := 5 }

/-- A filter state whose tower array holds stale data everywhere. -/
def sStale : SidebandState := { ohTwrArray := gStale, ohNumStreak := List.replicate nPhi 0 }

/-- The all-sentinel grid (every cell reset). -/
def gAllSentinel : Grid := fun _ _ => Tower.sentinel

/-- The default configuration values of StreakSidebandFilterConfig:
minStreakTwrEne = 0.6, maxAdjacentTwrEne = 0.06, minNumTwrsInStreak = 5. -/
def cfgDefault : SidebandConfig :=
  { minStreakTwrEne := 6 / 10, maxAdjacentTwrEne := 6 / 100, minNumTwrsInStreak := 5 }

/-- A grid separating the single- and double-increment variants: candidates at
(eta 0, phi 5) and (eta 1, phi 4), each with quiet good-status sidebands. -/
def gTwoCandidates : Grid :=
  fun eta phi =>
    if (eta = 0 ∧ phi = 5) ∨ (eta = 1 ∧ phi = 4) then { status := 1, energy := 1 }
    else if (eta = 0 ∧ (phi = 4 ∨ phi = 6)) ∨ (eta = 1 ∧ (phi = 3 ∨ phi = 5)) then
      { status := 1, energy := 0 }
    else Tower.sentinel

/-- A threshold-1 variant of cfgProbe for the variant-separation example. -/
def cfgThreshold1 : SidebandConfig :=
  { minStreakTwrEne := 1, maxAdjacentTwrEne := 0, minNumTwrsInStreak := 1 }

/-- A grid with a full 24-tower candidate column at phi 5, quiet sidebands at
phi 4 and phi 6. -/
def gFullColumn : Grid :=
  fun _ phi =>
    if phi = 5 then { status := 1, energy := 1 }
    else if phi = 4 ∨ phi = 6 then { status := 1, energy := 0 }
    else Tower.sentinel

-- helper lemmas ------------------------------------------------------------

theorem boolPlusAssign_eq_or (a b : Bool) : boolPlusAssign a b = (a || b) := by
  cases a <;> cases b <;> rfl

theorem applyFilters_go (v : String → Bool) :
    ∀ (fs l0 : List String) (b0 : Bool),
      fs.foldl (fun st n => (st.1 ++ [n], boolPlusAssign st.2 (v n))) (l0, b0)
        = (l0 ++ fs, b0 || fs.any v) := by
  intro fs
  induction fs with
  | nil => intro l0 b0; simp
  | cons f fs ih =>
      intro l0 b0
      rw [List.foldl_cons, ih, boolPlusAssign_eq_or]
      simp [List.append_assoc, Bool.or_assoc]

theorem maxElement_gt_iff (l : List Nat) (t : Nat) :
    t < maxElement l ↔ ∃ x ∈ l, t < x := by
  induction l with
  | nil => simp [maxElement]
  | cons a l ih =>
      have hcons : maxElement (a :: l) = max a (maxElement l) := rfl
      rw [hcons]
      constructor
      · intro h
        rcases lt_max_iff.mp h with h1 | h2
        · exact ⟨a, List.mem_cons_self a l, h1⟩
        · obtain ⟨x, hx, hxt⟩ := ih.mp h2
          exact ⟨x, List.mem_cons_of_mem a hx, hxt⟩
      · rintro ⟨x, hx, hxt⟩
        rcases List.mem_cons.mp hx with rfl | hx
        · exact lt_max_iff.mpr (Or.inl hxt)
        · exact lt_max_iff.mpr (Or.inr (ih.mpr ⟨x, hx, hxt⟩))

theorem streakStepSrc_length (cfg : SidebandConfig) (g : Grid) (counts : List Nat)
    (pe : Nat × Nat) : (streakStepSrc cfg g counts pe).length = counts.length := by
  by_cases h1 : IsTowerNotStreaky cfg (g pe.2 pe.1) = true
  · simp [streakStepSrc, h1]
  · by_cases h2 : (IsNeighborNotStreaky cfg (g pe.2 (getAdjacentUp pe.1))
        || IsNeighborNotStreaky cfg (g pe.2 (getAdjacentDown pe.1))) = true
    · simp [streakStepSrc, h1, h2]
    · simp [streakStepSrc, bumpCount, h1, h2]

theorem foldl_streakStepSrc_length (cfg : SidebandConfig) (g : Grid) :
    ∀ (l : List (Nat × Nat)) (c : List Nat),
      (l.foldl (streakStepSrc cfg g) c).length = c.length := by
  intro l
  induction l with
  | nil => intro c; rfl
  | cons pe l ih => intro c; rw [List.foldl_cons, ih, streakStepSrc_length]

theorem streakCountsSrc_length (cfg : SidebandConfig) (g : Grid) :
    (streakCountsSrc cfg g).length = nPhi := by
  unfold streakCountsSrc
  rw [foldl_streakStepSrc_length, List.length_replicate]

theorem foldl_skip_of_no_candidate (cfg : SidebandConfig) (g : Grid) :
    ∀ (l : List (Nat × Nat)) (c : List Nat),
      (∀ pe ∈ l, IsTowerNotStreaky cfg (g pe.2 pe.1) = true) →
        l.foldl (streakStepSrc cfg g) c = c := by
  intro l
  induction l with
  | nil => intro c _; rfl
  | cons pe l ih =>
      intro c h
      have hpe := h pe (List.mem_cons_self pe l)
      rw [List.foldl_cons]
      have hstep : streakStepSrc cfg g c pe = c := by
        simp [streakStepSrc, hpe]
      rw [hstep]
      exact ih c (fun q hq => h q (List.mem_cons_of_mem pe hq))

theorem mem_phiEtaPairs (pe : Nat × Nat) (hpe : pe ∈ phiEtaPairs) :
    pe.1 < nPhi ∧ pe.2 < nEta := by
  simp only [phiEtaPairs, List.mem_flatMap, List.mem_map, List.mem_range] at hpe
  obtain ⟨phi, hphi, eta, heta, rfl⟩ := hpe
  exact ⟨hphi, heta⟩

theorem BuildTowerArray_pointwise (e p : Nat) :
    ∀ (chs : List ChannelReading) (g : Grid),
      BuildTowerArray chs g e p = lastWriteVal chs e p (g e p) := by
  intro chs
  induction chs with
  | nil => intro g; rfl
  | cons c cs ih =>
      intro g
      show BuildTowerArray cs (writeTower g c.eta c.phi (Tower.SetInfo (g c.eta c.phi) c)) e p
          = lastWriteVal cs e p (if e = c.eta ∧ p = c.phi then Tower.SetInfo (g e p) c else g e p)
      rw [ih]
      congr 1

theorem lastWriteVal_const_or_id (e p : Nat) :
    ∀ chs : List ChannelReading,
      (∀ d1 d2 : Tower, lastWriteVal chs e p d1 = lastWriteVal chs e p d2) ∨
        (∀ d : Tower, lastWriteVal chs e p d = d) := by
  intro chs
  induction chs with
  | nil => exact Or.inr (fun d => rfl)
  | cons c cs ih =>
      by_cases h : e = c.eta ∧ p = c.phi
      · left
        intro d1 d2
        show lastWriteVal cs e p (if e = c.eta ∧ p = c.phi then Tower.SetInfo d1 c else d1)
            = lastWriteVal cs e p (if e = c.eta ∧ p = c.phi then Tower.SetInfo d2 c else d2)
        rw [if_pos h, if_pos h]
        rfl
      · rcases ih with hconst | hid
        · left
          intro d1 d2
          exact hconst _ _
        · right
          intro d
          show lastWriteVal cs e p (if e = c.eta ∧ p = c.phi then Tower.SetInfo d c else d) = d
          rw [if_neg h]
          exact hid d

theorem lastWriteVal_idem (chs : List ChannelReading) (e p : Nat) (d : Tower) :
    lastWriteVal chs e p (lastWriteVal chs e p d) = lastWriteVal chs e p d := by
  rcases lastWriteVal_const_or_id e p chs with hconst | hid
  · exact hconst _ _
  · rw [hid, hid]

theorem BuildTowerArray_idem (chs : List ChannelReading) (g : Grid) :
    BuildTowerArray chs (BuildTowerArray chs g) = BuildTowerArray chs g := by
  funext e p
  rw [BuildTowerArray_pointwise, BuildTowerArray_pointwise, lastWriteVal_idem]

-- claim theorems -----------------------------------------------------------

/-- Claim C1: the spec requires wraparound neighbors, with the down-neighbor
of a phi = 0 candidate at phi bin Nphi - 1 = 63.  The code instead computes
getAdjacentDown 0 = front().size() = 64, one past the last bin, so the claim
fails on the code at phi = 0 (the up-neighbor of phi = 63 does wrap to 0 as
claimed). -/
theorem getAdjacentDown_phi_zero_out_of_range :
    getAdjacentDown 0 = nPhi ∧ getAdjacentDown 0 ≠ nPhi - 1 ∧
      getAdjacentUp (nPhi - 1) = 0 := by
  decide

/-- Claim C2: with a candidate at (eta 0, phi 0), the streak loop uses the
down-neighbor index 64 to access the 64-cell tower row, so not every phi
index used for an array access is strictly less than 64. -/
theorem streak_loop_accesses_phi_64 :
    64 ∈ accessedNeighborPhiIndices cfgProbe gPhiZeroCandidate ∧ ¬ (64 : Nat) < nPhi := by
  decide

/-- Claim C3: ResetTowerArrays iterates rows and towers by value, so
Tower::Reset mutates copies; a stale cell keeps its pre-reset contents
instead of the unset sentinel. -/
theorem ResetTowerArrays_leaves_stale_cell :
    (ResetTowerArrays sStale).ohTwrArray 0 0 ≠ Tower.sentinel := by
  decide

/-- Claim C4: when the channel collection handle is null, ApplyFilter does
not complete with a false verdict: BuildTowerArray dereferences the null
handle, so the call produces no result at all. -/
theorem StreakApplyFilter_none_crashes (cfg : SidebandConfig) (s : SidebandState) :
    StreakApplyFilter none cfg s = none := rfl

/-- Claim C5: ApplyFilters invokes every configured filter in order,
unconditionally, and its aggregate verdict (accumulated with += on bool) is
true iff at least one configured filter returned true. -/
theorem ApplyFilters_or (fs : List String) (v : String → Bool) :
    (ApplyFilters fs v).1 = fs ∧
      ((ApplyFilters fs v).2 = true ↔ ∃ n ∈ fs, v n = true) := by
  unfold ApplyFilters
  rw [applyFilters_go]
  simp [List.any_eq_true]

/-- Claim C6: the verdict of the built grid is true iff the maximum of the 64
per-phi streak counters strictly exceeds minNumTwrsInStreak, i.e. iff some
phi bin's counter strictly exceeds the threshold. -/
theorem ApplyFilterVerdict_iff_exists_bin (cfg : SidebandConfig) (g : Grid) :
    ApplyFilterVerdict cfg g = true ↔
      ∃ p, p < nPhi ∧ cfg.minNumTwrsInStreak < (streakCountsSrc cfg g).getD p 0 := by
  unfold ApplyFilterVerdict
  rw [decide_eq_true_iff]
  rw [gt_iff_lt, maxElement_gt_iff]
  constructor
  · rintro ⟨x, hx, hxt⟩
    obtain ⟨n, hn⟩ := List.mem_iff_get.mp hx
    refine ⟨n.1, ?_, ?_⟩
    · rw [← streakCountsSrc_length cfg g]
      exact n.2
    · rw [List.getD_eq_getElem (streakCountsSrc cfg g) 0 n.2, ← List.get_eq_getElem, hn]
      exact hxt
  · rintro ⟨p, hp, hgt⟩
    have hlen : p < (streakCountsSrc cfg g).length := by
      rw [streakCountsSrc_length cfg g]
      exact hp
    refine ⟨(streakCountsSrc cfg g).getD p 0, ?_, hgt⟩
    rw [List.getD_eq_getElem (streakCountsSrc cfg g) 0 hlen]
    exact List.getElem_mem hlen

/-- Claim C7: on a grid with no candidate cell, every per-phi streak counter
stays zero and the verdict is false for every threshold. -/
theorem streakCountsSrc_zero_of_no_candidate (cfg : SidebandConfig) (g : Grid)
    (h : ∀ eta, eta < nEta → ∀ phi, phi < nPhi → isCandidate cfg (g eta phi) = false) :
    streakCountsSrc cfg g = List.replicate nPhi 0 ∧ ApplyFilterVerdict cfg g = false := by
  have hcounts : streakCountsSrc cfg g = List.replicate nPhi 0 := by
    unfold streakCountsSrc
    apply foldl_skip_of_no_candidate
    intro pe hpe
    obtain ⟨hphi, heta⟩ := mem_phiEtaPairs pe hpe
    have hc := h pe.2 heta pe.1 hphi
    unfold isCandidate at hc
    cases hb : IsTowerNotStreaky cfg (g pe.2 pe.1) with
    | true => rfl
    | false => rw [hb] at hc; simp at hc
  refine ⟨hcounts, ?_⟩
  unfold ApplyFilterVerdict
  apply decide_eq_false
  rw [hcounts]
  have hmax : maxElement (List.replicate nPhi 0) = 0 := by decide
  rw [hmax]
  exact Nat.not_lt_zero _

/-- Witness for claim C7: the all-sentinel grid has no candidates under the
default thresholds, its counters are all zero, and the verdict is false. -/
theorem streakCountsSrc_zero_of_no_candidate_witness :
    streakCountsSrc cfgDefault gAllSentinel = List.replicate nPhi 0 ∧
      ApplyFilterVerdict cfgDefault gAllSentinel = false :=
  streakCountsSrc_zero_of_no_candidate cfgDefault gAllSentinel (by decide)

/-- Claim C8: the single-increment detection (src) and the double-increment
detection (part_001) are not equivalent: at threshold 1 the grid with
candidates at (eta 0, phi 5) and (eta 1, phi 4) yields max counts 1 and 2
respectively, hence different boolean verdicts. -/
theorem single_and_double_increment_differ :
    ∃ cfg : SidebandConfig, ∃ g : Grid,
      ApplyFilterVerdict cfg g ≠ ApplyFilterVerdictDouble cfg g :=
  ⟨cfgThreshold1, gTwoCandidates, by decide⟩

/-- Claim C9: running the reset-then-build sequence twice with the same
channel list yields the same filter state as running it once, and the
detection verdict on the two grids coincides. -/
theorem ResetAndBuild_idempotent (chs : List ChannelReading) (s : SidebandState)
    (cfg : SidebandConfig) :
    ResetAndBuild chs (ResetAndBuild chs s) = ResetAndBuild chs s ∧
      ApplyFilterVerdict cfg (ResetAndBuild chs (ResetAndBuild chs s)).ohTwrArray
        = ApplyFilterVerdict cfg (ResetAndBuild chs s).ohTwrArray := by
  have hgrid : ResetAndBuild chs (ResetAndBuild chs s) = ResetAndBuild chs s := by
    show SidebandState.mk (BuildTowerArray chs (BuildTowerArray chs s.ohTwrArray))
        (List.replicate nPhi 0)
      = SidebandState.mk (BuildTowerArray chs s.ohTwrArray) (List.replicate nPhi 0)
    rw [BuildTowerArray_idem]
  exact ⟨hgrid, by rw [hgrid]⟩

/-- Claim C10: for a fixed grid and fixed energy thresholds the verdict is
antitone in minNumTwrsInStreak: if it is true at threshold t2 it is true at
any threshold t1 <= t2. -/
theorem ApplyFilterVerdict_antitone_threshold (g : Grid) (eMin eMax : Rat)
    (t1 t2 : Nat) (hle : t1 ≤ t2)
    (h2 : ApplyFilterVerdict ⟨eMin, eMax, t2⟩ g = true) :
    ApplyFilterVerdict ⟨eMin, eMax, t1⟩ g = true := by
  have hcounts : streakCountsSrc ⟨eMin, eMax, t1⟩ g = streakCountsSrc ⟨eMin, eMax, t2⟩ g := by
    unfold streakCountsSrc
    rw [show streakStepSrc ⟨eMin, eMax, t1⟩ g = streakStepSrc ⟨eMin, eMax, t2⟩ g from rfl]
  unfold ApplyFilterVerdict at h2 ⊢
  have h2' := of_decide_eq_true h2
  apply decide_eq_true
  show t1 < maxElement (streakCountsSrc ⟨eMin, eMax, t1⟩ g)
  rw [hcounts]
  exact lt_of_le_of_lt hle h2'

/-- Witness for claim C10: the full-column grid has verdict true at
threshold 10, and the theorem transports this down to threshold 3. -/
theorem ApplyFilterVerdict_antitone_threshold_witness :
    ApplyFilterVerdict ⟨1, 0, 3⟩ gFullColumn = true :=
  ApplyFilterVerdict_antitone_threshold gFullColumn 1 0 3 10 (by decide) (by decide)

end BBFQ
